import Mathlib

/-!
# Verification of the waste-composition API pipeline (`src/step1.py`)

A shallow embedding of the single source file `step1.py`: the Pydantic data
model, the two-stage LLM pipeline `get_waste_composition`, the HTTP handlers
`waste_composition_endpoint` and `health_check`.

Modelling conventions:
* Python floats are modelled as rationals (`ℚ`); every claim settled here is
  about data flow and control flow, never about rounding.
* The LLM provider is opaque: the outcomes of the two outbound calls
  (retrieval on `client.responses.create`, extraction on
  `client.responses.parse`) are inputs to the pipeline, each an `Except`
  whose error case models a raised Python exception (carrying its message).
* A Python `dict` is an insertion-ordered association list; `dictInsert`
  models `d[k] = v` (overwrite in place, else append at the end).
* Handlers additionally return the list of provider calls they performed and
  whether the pipeline logged the sum-validation warning, so that claims
  about "no retry", "does not call the provider" and "warn only" are
  statable.
-/

namespace Step1

/-- Pydantic model `WasteComposition` (`step1.py` lines 28–30): one extracted
composition entry. `composition_percentage` is a Python float, modelled as ℚ. -/
structure WasteComposition where
  composition_name : String
  composition_percentage : ℚ
  deriving Repr, DecidableEq

/-- Pydantic model `WasteCompositionResponse` (`step1.py` lines 32–34). -/
structure WasteCompositionResponse where
  composition_dict : List WasteComposition
  citation_dict : List String
  deriving Repr, DecidableEq

/-- A source annotation of the retrieval response
(`response.output[1].content[0].annotations[i]`): carries a URL. -/
structure Annotation where
  url : String
  deriving Repr, DecidableEq

/-- The part of the retrieval response the pipeline reads
(`response.output[1].content[0]`): the raw text and the annotation list. -/
structure RetrievalContent where
  text : String
  annotations : List Annotation
  deriving Repr, DecidableEq

/-- A Python exception, identified by its message string. -/
abbrev PyError := String

/-- The outcomes of the two outbound provider calls, fixed before the
pipeline runs: the retrieval call (`client.responses.create`) and the
extraction call (`client.responses.parse`, whose parsed output is a
`WasteCompositionResponse`). An `Except.error` models the call raising. -/
structure ProviderEnv where
  retrieval : Except PyError RetrievalContent
  extraction : Except PyError WasteCompositionResponse

/-- Which provider call a handler performed (for call-count bookkeeping). -/
inductive ProviderCall where
  | retrieval
  | extraction
  deriving Repr, DecidableEq

/-- A Python `dict` with string keys and float values: an insertion-ordered
association list. -/
abbrev PyDict := List (String × ℚ)

/-- Python `d[k] = v`: if the key is present, overwrite its value in place;
otherwise append the new pair at the end (insertion order). -/
def dictInsert (d : PyDict) (k : String) (v : ℚ) : PyDict :=
  if d.any (fun p => p.1 == k) then
    d.map (fun p => if p.1 == k then (k, v) else p)
  else
    d ++ [(k, v)]

/-- Python `d.get(k)`: the value stored at key `k`, if any. -/
def dictGet (d : PyDict) (k : String) : Option ℚ :=
  (d.find? (fun p => p.1 == k)).map Prod.snd

/-- Python `abs` on floats (here ℚ). -/
def pyAbs (x : ℚ) : ℚ :=
  if x < 0 then -x else x

/-- Source `step1.py` lines 123–127: collect the citation URLs from the retrieval
annotations, in order, no deduplication (the loop body appends
`annotations[i].url`; the surrounding `if len(...) > 0` guard is kept). -/
def buildCitations (annotations : List Annotation) : List String :=
  if annotations.length > 0 then
    annotations.foldl (fun acc a => acc ++ [a.url]) []
  else
    []

/-- Source `step1.py` lines 129–133: build `dictionary_composition` by iterating the
extracted entries, assigning
`d[entry.composition_name] = entry.composition_percentage` for each (the
surrounding `if len(...) > 0` guard is kept). -/
def buildComposition (entries : List WasteComposition) : PyDict :=
  if entries.length > 0 then
    entries.foldl (fun d e => dictInsert d e.composition_name e.composition_percentage) []
  else
    []

/-- The `response_data` dict built at `step1.py` lines 137–141. -/
structure ResponseData where
  output : String
  citations : List String
  composition : PyDict
  deriving Repr, DecidableEq

/-- Pydantic validation of the keyword-argument construction
`WasteCompositionResponse(...)`: each field is `some` when the keyword was
passed, `none` when absent. Both fields are required and have no default, so
a missing field raises a `ValidationError`; an extra keyword (such as
`message=` at `step1.py` line 153) is ignored by the default Pydantic
configuration and does not appear here. -/
def validateWasteCompositionResponse (composition_dict : Option (List WasteComposition))
    (citation_dict : Option (List String)) : Except PyError WasteCompositionResponse :=
  match composition_dict, citation_dict with
  | some cd, some ci => Except.ok ⟨cd, ci⟩
  | none, _ =>
      Except.error "1 validation error for WasteCompositionResponse: composition_dict Field required"
  | some _, none =>
      Except.error "1 validation error for WasteCompositionResponse: citation_dict Field required"

/-- A value `get_waste_composition` can hand to its caller (Python is
untyped, so the success list and a structured `WasteCompositionResponse` are
both possible shapes a priori). -/
inductive PyValue where
  | listResult (v : List ResponseData)
  | structured (r : WasteCompositionResponse)
  deriving Repr, DecidableEq

/-- Result of running the `try` body of `get_waste_composition`
(`step1.py` lines 79–147): the returned value or the raised exception,
whether the sum-validation warning at line 143 was logged, and the provider
calls made. -/
structure BodyTrace where
  result : Except PyError (List ResponseData)
  warned : Bool
  calls : List ProviderCall
  deriving Repr

/-- The `try` body of `get_waste_composition` (`step1.py` lines 79–147):
retrieval call, extraction call, citation collection, composition dict,
sum validation (warn only — both branches return `[response_data]`). -/
def pipelineBody (env : ProviderEnv) : BodyTrace :=
  match env.retrieval with
  | Except.error e => ⟨Except.error e, false, [ProviderCall.retrieval]⟩
  | Except.ok content =>
    match env.extraction with
    | Except.error e => ⟨Except.error e, false, [ProviderCall.retrieval, ProviderCall.extraction]⟩
    | Except.ok parsed =>
      let dictionary_link := buildCitations content.annotations
      let dictionary_composition := buildComposition parsed.composition_dict
      let total_percentage := (dictionary_composition.map Prod.snd).sum
      let response_data : ResponseData :=
        ⟨content.text, dictionary_link, dictionary_composition⟩
      if pyAbs (total_percentage - 100) > 3 / 100 then
        ⟨Except.ok [response_data], true,
          [ProviderCall.retrieval, ProviderCall.extraction]⟩
      else
        ⟨Except.ok [response_data], false,
          [ProviderCall.retrieval, ProviderCall.extraction]⟩

/-- Trace of a full `get_waste_composition` call: the value returned to the
caller or the exception that propagated, plus warning flag and call list. -/
structure PipelineTrace where
  outcome : Except PyError PyValue
  warned : Bool
  calls : List ProviderCall
  deriving Repr

/-- Model of `get_waste_composition` (`step1.py` lines 76–154): run the `try` body; on
success return its value. On any exception, the `except` branch (lines
149–154) evaluates `WasteCompositionResponse(citation_dict=[], message=...)`;
if that construction validated it would be returned, but a failed validation
raises in turn and propagates to the caller. -/
def get_waste_composition (env : ProviderEnv) : PipelineTrace :=
  let t := pipelineBody env
  match t.result with
  | Except.ok v => ⟨Except.ok (PyValue.listResult v), t.warned, t.calls⟩
  | Except.error _ =>
    match validateWasteCompositionResponse none (some []) with
    | Except.ok r => ⟨Except.ok (PyValue.structured r), t.warned, t.calls⟩
    | Except.error v => ⟨Except.error v, t.warned, t.calls⟩

/-- An HTTP response of the endpoint: `JSONResponse(status_code=200, ...)` or
the `HTTPException` with status 500 and a `detail` field. -/
inductive HttpResponse where
  | ok200 (body : PyValue)
  | error500 (detail : String)
  deriving Repr, DecidableEq

/-- Trace of one HTTP request: the response plus warning flag and provider
call list. -/
structure EndpointTrace where
  response : HttpResponse
  warned : Bool
  calls : List ProviderCall
  deriving Repr, DecidableEq

/-- Model of `waste_composition_endpoint` (`step1.py` lines 156–173): await the
pipeline; on success wrap its result in a 200 `JSONResponse`; on any
exception raise `HTTPException(500, detail=f"Internal server error: {e}")`. -/
def waste_composition_endpoint (env : ProviderEnv) : EndpointTrace :=
  let t := get_waste_composition env
  match t.outcome with
  | Except.ok result => ⟨HttpResponse.ok200 result, t.warned, t.calls⟩
  | Except.error e =>
      ⟨HttpResponse.error500 ("Internal server error: " ++ e), t.warned, t.calls⟩

/-- Model of `health_check` (`step1.py` lines 175–179): returns the fixed payload and
touches no provider state. It is modelled as a function of the provider
environment (which is in scope in the process) so that independence from the
provider is statable; it performs no provider call. -/
def health_check (_env : ProviderEnv) : (List (String × String)) × List ProviderCall :=
  ([("status", "healthy"), ("version", "1.0.0")], [])

/-! ## Lemmas about the Python dict model -/

theorem dictGet_dictInsert_self (d : PyDict) (k : String) (v : ℚ) :
    dictGet (dictInsert d k v) k = some v := by
  unfold dictInsert dictGet
  split
  · rename_i hany
    rw [List.find?_map]
    have hpred : ((fun p : String × ℚ => p.1 == k) ∘
        (fun p : String × ℚ => if p.1 == k then (k, v) else p)) =
        (fun p : String × ℚ => p.1 == k) := by
      funext p
      cases hb : (p.1 == k)
      · have hb' : ¬ p.1 = k := by simpa using hb
        simp [hb']
      · have hb' : p.1 = k := by simpa using hb
        simp [hb']
    rw [hpred]
    obtain ⟨x, hx, hxk⟩ := List.any_eq_true.mp hany
    have hs : (d.find? (fun p => p.1 == k)).isSome := List.find?_isSome.mpr ⟨x, hx, hxk⟩
    obtain ⟨q, hq⟩ := Option.isSome_iff_exists.mp hs
    have hqk := List.find?_some hq
    have hq1 : q.1 = k := by simpa using hqk
    rw [hq]
    simp [hq1]
  · rename_i hany
    rw [List.find?_append]
    have h1 : d.find? (fun p => p.1 == k) = none := by
      rw [List.find?_eq_none]
      intro x hx hxk
      exact hany (List.any_eq_true.mpr ⟨x, hx, hxk⟩)
    simp [h1]

theorem dictGet_dictInsert_ne (d : PyDict) (k k' : String) (v : ℚ) (h : k' ≠ k) :
    dictGet (dictInsert d k v) k' = dictGet d k' := by
  have hkk' : ¬ k = k' := fun hh => h hh.symm
  unfold dictInsert dictGet
  split
  · rw [List.find?_map]
    have hpred : ((fun p : String × ℚ => p.1 == k') ∘
        (fun p : String × ℚ => if p.1 == k then (k, v) else p)) =
        (fun p : String × ℚ => p.1 == k') := by
      funext p
      cases hb : (p.1 == k)
      · have hb' : ¬ p.1 = k := by simpa using hb
        simp [hb']
      · have hb' : p.1 = k := by simpa using hb
        simp [hb', hkk']
    rw [hpred]
    cases hf : d.find? (fun p => p.1 == k') with
    | none => simp
    | some q =>
      have hqk := List.find?_some hf
      have hq1 : q.1 = k' := by simpa using hqk
      have hq2 : ¬ q.1 = k := by rw [hq1]; exact h
      simp [hq2]
  · rw [List.find?_append]
    simp [hkk']

theorem mem_dictInsert (d : PyDict) (k : String) (v : ℚ) (p : String × ℚ)
    (hp : p ∈ dictInsert d k v) : p ∈ d ∨ p = (k, v) := by
  unfold dictInsert at hp
  split at hp
  · obtain ⟨q, hq, hfq⟩ := List.mem_map.mp hp
    cases hb : (q.1 == k)
    · have hb' : ¬ q.1 = k := by simpa using hb
      left; rw [← hfq]; simpa [hb'] using hq
    · have hb' : q.1 = k := by simpa using hb
      right; rw [← hfq]; simp [hb']
  · rcases List.mem_append.mp hp with h1 | h1
    · exact Or.inl h1
    · exact Or.inr (by simpa using h1)

theorem keys_dictInsert (d : PyDict) (k : String) (v : ℚ) :
    (dictInsert d k v).map Prod.fst =
      if d.any (fun p => p.1 == k) then d.map Prod.fst else d.map Prod.fst ++ [k] := by
  unfold dictInsert
  split
  · rw [List.map_map]
    apply List.map_congr_left
    intro p hp
    cases hb : (p.1 == k)
    · have hb' : ¬ p.1 = k := by simpa using hb
      simp [hb']
    · have hb' : p.1 = k := by simpa using hb
      simp [hb']
  · simp

theorem keys_nodup_dictInsert (d : PyDict) (k : String) (v : ℚ)
    (h : (d.map Prod.fst).Nodup) : ((dictInsert d k v).map Prod.fst).Nodup := by
  rw [keys_dictInsert]
  split
  · exact h
  · rename_i hany
    have hk : k ∉ d.map Prod.fst := by
      intro hmem
      obtain ⟨p, hp, hpk⟩ := List.mem_map.mp hmem
      exact hany (List.any_eq_true.mpr ⟨p, hp, by simp [hpk]⟩)
    simp [List.nodup_append, h, hk]

/-! ## Lemmas about the composition-building fold -/

theorem dictGet_foldl_comp (entries : List WasteComposition) (d : PyDict) (name : String) :
    dictGet (entries.foldl
        (fun d e => dictInsert d e.composition_name e.composition_percentage) d) name =
      match entries.reverse.find? (fun e => e.composition_name == name) with
      | some e => some e.composition_percentage
      | none => dictGet d name := by
  induction entries using List.reverseRecOn generalizing d with
  | nil => simp
  | append_singleton xs x ih =>
    rw [List.foldl_append, List.foldl_cons, List.foldl_nil, List.reverse_append]
    simp only [List.reverse_cons, List.reverse_nil, List.nil_append, List.singleton_append]
    cases hb : (x.composition_name == name)
    · have hb' : ¬ x.composition_name = name := by simpa using hb
      rw [List.find?_cons_of_neg _ (by simpa using hb')]
      rw [dictGet_dictInsert_ne _ _ _ _ (fun hh => hb' hh.symm)]
      exact ih d
    · have hb' : x.composition_name = name := by simpa using hb
      have hf : List.find? (fun e => e.composition_name == name) (x :: xs.reverse) = some x :=
        List.find?_cons_of_pos _ hb
      rw [hf, hb', dictGet_dictInsert_self]

theorem mem_foldl_comp (entries : List WasteComposition) (d : PyDict) (p : String × ℚ)
    (hp : p ∈ entries.foldl
        (fun d e => dictInsert d e.composition_name e.composition_percentage) d) :
    p ∈ d ∨ ∃ e ∈ entries, p = (e.composition_name, e.composition_percentage) := by
  induction entries generalizing d with
  | nil => exact Or.inl (by simpa using hp)
  | cons e rest ih =>
    rw [List.foldl_cons] at hp
    rcases ih _ hp with h1 | h1
    · rcases mem_dictInsert _ _ _ _ h1 with h2 | h2
      · exact Or.inl h2
      · exact Or.inr ⟨e, List.mem_cons_self e rest, h2⟩
    · obtain ⟨e', he', hpe⟩ := h1
      exact Or.inr ⟨e', List.mem_cons_of_mem e he', hpe⟩

theorem keys_nodup_foldl_comp (entries : List WasteComposition) (d : PyDict)
    (h : (d.map Prod.fst).Nodup) :
    ((entries.foldl
        (fun d e => dictInsert d e.composition_name e.composition_percentage) d).map
      Prod.fst).Nodup := by
  induction entries generalizing d with
  | nil => exact h
  | cons e rest ih =>
    rw [List.foldl_cons]
    exact ih _ (keys_nodup_dictInsert _ _ _ h)

theorem buildComposition_eq_foldl (entries : List WasteComposition) :
    buildComposition entries =
      entries.foldl
        (fun d e => dictInsert d e.composition_name e.composition_percentage) [] := by
  unfold buildComposition
  split
  · rfl
  · rename_i hlen
    have : entries = [] := by
      cases entries with
      | nil => rfl
      | cons a l => simp at hlen
    rw [this]
    rfl

theorem foldl_citations_append (l : List Annotation) (acc : List String) :
    l.foldl (fun acc a => acc ++ [a.url]) acc = acc ++ l.map Annotation.url := by
  induction l generalizing acc with
  | nil => simp
  | cons a rest ih =>
    rw [List.foldl_cons, ih]
    simp

theorem buildCitations_eq_map (annotations : List Annotation) :
    buildCitations annotations = annotations.map Annotation.url := by
  unfold buildCitations
  split
  · rw [foldl_citations_append, List.nil_append]
  · rename_i hlen
    cases annotations with
    | nil => rfl
    | cons a l => simp at hlen

/-- When both provider calls succeed, `get_waste_composition` returns the
single-element list `[response_data]`, whichever way the sum check goes. -/
theorem pipeline_success_outcome (content : RetrievalContent)
    (parsed : WasteCompositionResponse) :
    (get_waste_composition ⟨Except.ok content, Except.ok parsed⟩).outcome =
      Except.ok (PyValue.listResult
        [⟨content.text, buildCitations content.annotations,
          buildComposition parsed.composition_dict⟩]) := by
  unfold get_waste_composition pipelineBody
  dsimp only
  by_cases hc :
      pyAbs ((List.map Prod.snd (buildComposition parsed.composition_dict)).sum - 100) > 3 / 100
  · rw [if_pos hc]
  · rw [if_neg hc]

theorem mem_keys_of_dictGet_some (d : PyDict) (k : String) (v : ℚ)
    (h : dictGet d k = some v) : k ∈ d.map Prod.fst := by
  unfold dictGet at h
  cases hf : d.find? (fun p => p.1 == k) with
  | none => rw [hf] at h; simp at h
  | some q =>
    have hq1 : q.1 = k := by simpa using List.find?_some hf
    exact hq1 ▸ List.mem_map.mpr ⟨q, List.mem_of_find?_eq_some hf, rfl⟩

/-! ## Claims -/

/-- C1: For every area string (that is, for every outcome of the provider
calls the request triggers), the endpoint yields either an HTTP 200 response
whose JSON body is an array of length 1, or an HTTP 500 response carrying a
`detail` field; the handler is total, so no outcome of the pipeline escapes
as an unhandled crash. -/
theorem C1_endpoint_200_array_or_500_detail (env : ProviderEnv) :
    (∃ v : List ResponseData, (waste_composition_endpoint env).response =
        HttpResponse.ok200 (PyValue.listResult v) ∧ v.length = 1) ∨
    (∃ d : String,
        (waste_composition_endpoint env).response = HttpResponse.error500 d) := by
  obtain ⟨r, x⟩ := env
  unfold waste_composition_endpoint get_waste_composition pipelineBody
  cases r with
  | error e => right; exact ⟨_, rfl⟩
  | ok content =>
    cases x with
    | error e => right; exact ⟨_, rfl⟩
    | ok parsed =>
      left
      dsimp only
      by_cases hc :
          pyAbs ((List.map Prod.snd (buildComposition parsed.composition_dict)).sum - 100) >
            3 / 100
      · rw [if_pos hc]; exact ⟨_, rfl, rfl⟩
      · rw [if_neg hc]; exact ⟨_, rfl, rfl⟩

/-- C3: The pipeline returns exactly the same single-element result list
(raw text, citations, composition mapping) for every extraction output,
whether or not the composition sum deviates from 100.0 by more than 0.03:
the sum validation never alters, filters, or rejects the result. -/
theorem C3_sum_check_is_observational (content : RetrievalContent)
    (parsed : WasteCompositionResponse) :
    (get_waste_composition ⟨Except.ok content, Except.ok parsed⟩).outcome =
      Except.ok (PyValue.listResult
        [⟨content.text, buildCitations content.annotations,
          buildComposition parsed.composition_dict⟩]) :=
  pipeline_success_outcome content parsed

/-- C4: Whenever the pipeline body raises, the `except` branch's construction
`WasteCompositionResponse(citation_dict=[], message=...)` fails validation
(required field `composition_dict` absent), so `get_waste_composition` never
returns a structured error value: every pipeline failure propagates to the
caller as an exception. -/
theorem C4_except_branch_raises_validation_error (env : ProviderEnv) (e : PyError)
    (h : (pipelineBody env).result = Except.error e) :
    (∃ msg, validateWasteCompositionResponse none (some []) = Except.error msg) ∧
    (get_waste_composition env).outcome = Except.error
      "1 validation error for WasteCompositionResponse: composition_dict Field required" := by
  refine ⟨⟨_, rfl⟩, ?_⟩
  unfold get_waste_composition
  dsimp only
  rw [h]
  rfl

/-- C4 witness: with a retrieval call that raises, the pipeline propagates
the validation error. -/
theorem C4_witness :
    (∃ msg, validateWasteCompositionResponse none (some []) = Except.error msg) ∧
    (get_waste_composition ⟨Except.error "boom", Except.ok ⟨[], []⟩⟩).outcome =
      Except.error
        "1 validation error for WasteCompositionResponse: composition_dict Field required" :=
  C4_except_branch_raises_validation_error ⟨Except.error "boom", Except.ok ⟨[], []⟩⟩
    "boom" rfl

/-- C6: The citations list of the pipeline result is exactly the annotation
URLs in their original order (so in particular its length equals the number
of annotations), with no deduplication. -/
theorem C6_citations_preserve_annotations (content : RetrievalContent)
    (parsed : WasteCompositionResponse) :
    (get_waste_composition ⟨Except.ok content, Except.ok parsed⟩).outcome =
      Except.ok (PyValue.listResult
        [⟨content.text, content.annotations.map Annotation.url,
          buildComposition parsed.composition_dict⟩]) ∧
    (content.annotations.map Annotation.url).length = content.annotations.length := by
  constructor
  · rw [← buildCitations_eq_map]
    exact pipeline_success_outcome content parsed
  · exact List.length_map content.annotations Annotation.url

/-- C9: Every request to GET /health returns the fixed payload
`{status: "healthy", version: "1.0.0"}` independently of the provider
environment, and the handler performs no provider call. -/
theorem C9_health_fixed_payload (env env' : ProviderEnv) :
    health_check env = ([("status", "healthy"), ("version", "1.0.0")], []) ∧
    health_check env = health_check env' ∧
    (health_check env).2 = [] :=
  ⟨rfl, rfl, rfl⟩

/-- C10: Every value in the composition mapping is, verbatim, the
`composition_percentage` of some entry of the extraction output: the
normalizer never scales, rounds, clamps, or otherwise modifies a
percentage. -/
theorem C10_values_verbatim (entries : List WasteComposition) (p : String × ℚ)
    (hp : p ∈ buildComposition entries) :
    ∃ e ∈ entries, e.composition_name = p.1 ∧ e.composition_percentage = p.2 := by
  rw [buildComposition_eq_foldl] at hp
  rcases mem_foldl_comp _ _ _ hp with h | ⟨e, he, hpe⟩
  · simp at h
  · exact ⟨e, he, by simp [hpe], by simp [hpe]⟩

/-- C10 witness: the single extracted entry appears verbatim. -/
theorem C10_witness :
    ∃ e ∈ ([⟨"glass", 12⟩] : List WasteComposition),
      e.composition_name = ("glass", (12 : ℚ)).1 ∧
      e.composition_percentage = ("glass", (12 : ℚ)).2 :=
  C10_values_verbatim [⟨"glass", 12⟩] ("glass", 12) (by decide)

/-- C2: When two or more extracted entries share a category name, the
composition mapping holds exactly one entry for that name, and its value is
the percentage of the last entry with that name (last-write-wins); earlier
values are discarded. -/
theorem C2_duplicate_names_last_write_wins (entries : List WasteComposition)
    (name : String)
    (h : 2 ≤ entries.countP (fun e => e.composition_name == name)) :
    ((buildComposition entries).map Prod.fst).count name = 1 ∧
    dictGet (buildComposition entries) name =
      (entries.reverse.find? (fun e => e.composition_name == name)).map
        (fun e => e.composition_percentage) := by
  have hex : ∃ e ∈ entries, (e.composition_name == name) = true := by
    by_contra hne
    push_neg at hne
    have h0 : entries.countP (fun e => e.composition_name == name) = 0 := by
      rw [List.countP_eq_zero]
      intro a ha
      simpa using hne a ha
    omega
  obtain ⟨e0, he0, he0n⟩ := hex
  have hs : (entries.reverse.find? (fun e => e.composition_name == name)).isSome :=
    List.find?_isSome.mpr ⟨e0, List.mem_reverse.mpr he0, he0n⟩
  obtain ⟨q, hq⟩ := Option.isSome_iff_exists.mp hs
  have hget : dictGet (buildComposition entries) name = some q.composition_percentage := by
    rw [buildComposition_eq_foldl, dictGet_foldl_comp, hq]
  constructor
  · apply List.count_eq_one_of_mem
    · rw [buildComposition_eq_foldl]
      exact keys_nodup_foldl_comp entries [] (by simp)
    · exact mem_keys_of_dictGet_some _ _ _ hget
  · rw [hget, hq]
    rfl

/-- C2 witness: two entries named "food"; the mapping keeps one entry whose
value is the later percentage. -/
theorem C2_witness :
    ((buildComposition [⟨"food", 60⟩, ⟨"food", 40⟩]).map Prod.fst).count "food" = 1 ∧
    dictGet (buildComposition [⟨"food", 60⟩, ⟨"food", 40⟩]) "food" =
      (([⟨"food", 60⟩, ⟨"food", 40⟩] : List WasteComposition).reverse.find?
        (fun e => e.composition_name == "food")).map (fun e => e.composition_percentage) :=
  C2_duplicate_names_last_write_wins [⟨"food", 60⟩, ⟨"food", 40⟩] "food" (by decide)

/-- C5 counterexample: with an extraction output whose single percentage is
−5, the pipeline returns a composition mapping containing the negative value
−5, so it is not true that every returned composition mapping has only
non-negative values. -/
theorem C5_counterexample :
    (get_waste_composition ⟨Except.ok ⟨"raw", []⟩,
        Except.ok ⟨[⟨"plastics", -5⟩], []⟩⟩).outcome =
      Except.ok (PyValue.listResult [⟨"raw", [], [("plastics", -5)]⟩]) ∧
    ∃ p ∈ ([("plastics", (-5 : ℚ))] : PyDict), p.2 < 0 := by
  constructor
  · have h := pipeline_success_outcome ⟨"raw", []⟩ ⟨[⟨"plastics", -5⟩], []⟩
    simpa [buildCitations, buildComposition, dictInsert] using h
  · exact ⟨("plastics", -5), by simp, by norm_num⟩

/-- C5 (amended): values of the composition mapping are taken verbatim from
the extraction output, so they are all non-negative whenever every extracted
percentage is non-negative (the code does not itself enforce
non-negativity); and the sum of the values lies within 0.03 of 100.0 exactly
when the pipeline's warn-only sum check passes (the property is checked,
not enforced). -/
theorem C5_amended_nonneg_and_sum_checked (content : RetrievalContent)
    (parsed : WasteCompositionResponse)
    (h : ∀ e ∈ parsed.composition_dict, 0 ≤ e.composition_percentage) :
    (∀ p ∈ buildComposition parsed.composition_dict, 0 ≤ p.2) ∧
    ((get_waste_composition ⟨Except.ok content, Except.ok parsed⟩).warned = false ↔
      pyAbs (((buildComposition parsed.composition_dict).map Prod.snd).sum - 100) ≤
        3 / 100) := by
  constructor
  · intro p hp
    rw [buildComposition_eq_foldl] at hp
    rcases mem_foldl_comp _ _ _ hp with h1 | ⟨e, he, hpe⟩
    · simp at h1
    · rw [hpe]
      exact h e he
  · unfold get_waste_composition pipelineBody
    dsimp only
    by_cases hc :
        pyAbs ((List.map Prod.snd (buildComposition parsed.composition_dict)).sum - 100) >
          3 / 100
    · rw [if_pos hc]
      have hn := not_le.mpr hc
      simp [hn]
    · rw [if_neg hc]
      have hn := not_lt.mp hc
      simp [hn]

/-- C5 (amended) witness: two non-negative entries summing to 100; every
mapping value is non-negative and the check passes. -/
theorem C5_amended_witness :
    (∀ p ∈ buildComposition [⟨"food", 60⟩, ⟨"plastics", 40⟩], 0 ≤ p.2) ∧
    ((get_waste_composition ⟨Except.ok ⟨"raw", []⟩,
        Except.ok ⟨[⟨"food", 60⟩, ⟨"plastics", 40⟩], []⟩⟩).warned = false ↔
      pyAbs (((buildComposition [⟨"food", 60⟩, ⟨"plastics", 40⟩]).map Prod.snd).sum - 100) ≤
        3 / 100) :=
  C5_amended_nonneg_and_sum_checked ⟨"raw", []⟩
    ⟨[⟨"food", 60⟩, ⟨"plastics", 40⟩], []⟩ (by decide)

/-- On a retrieval response with no annotations and an empty extraction
list, the pipeline body yields the empty-composition result with the
warning flag set. -/
theorem pipelineBody_empty (raw : String) (pcits : List String) :
    pipelineBody ⟨Except.ok ⟨raw, []⟩, Except.ok ⟨[], pcits⟩⟩ =
      ⟨Except.ok [⟨raw, [], []⟩], true,
        [ProviderCall.retrieval, ProviderCall.extraction]⟩ := by
  have hc : pyAbs ((List.map Prod.snd
      (buildComposition ([] : List WasteComposition))).sum - 100) > 3 / 100 := by
    norm_num [buildComposition, pyAbs]
  unfold pipelineBody
  dsimp only
  rw [if_pos hc]
  simp [buildCitations, buildComposition]

/-- When the pipeline body returns normally, `get_waste_composition` wraps
its value in the list-result shape and passes the trace through. -/
theorem get_of_body_ok (env : ProviderEnv) (v : List ResponseData) (w : Bool)
    (cs : List ProviderCall) (h : pipelineBody env = ⟨Except.ok v, w, cs⟩) :
    get_waste_composition env = ⟨Except.ok (PyValue.listResult v), w, cs⟩ := by
  unfold get_waste_composition
  rw [h]

/-- When the pipeline returns a value, the endpoint wraps it in a 200
response and passes the trace through. -/
theorem endpoint_of_get_ok (env : ProviderEnv) (pv : PyValue) (w : Bool)
    (cs : List ProviderCall) (h : get_waste_composition env = ⟨Except.ok pv, w, cs⟩) :
    waste_composition_endpoint env = ⟨HttpResponse.ok200 pv, w, cs⟩ := by
  unfold waste_composition_endpoint
  rw [h]

/-- C7: When the retrieval call returns no annotations and the extraction
call returns an empty composition list, the pipeline returns the
single-element list `[{output, citations: [], composition: {}}]`, the sum
check fails and only the warning flag is set, and the endpoint still
responds 200. -/
theorem C7_invalid_area_flow (raw : String) (parsed_citations : List String) :
    waste_composition_endpoint
        ⟨Except.ok ⟨raw, []⟩, Except.ok ⟨[], parsed_citations⟩⟩ =
      ⟨HttpResponse.ok200 (PyValue.listResult [⟨raw, [], []⟩]), true,
        [ProviderCall.retrieval, ProviderCall.extraction]⟩ :=
  endpoint_of_get_ok _ _ _ _
    (get_of_body_ok _ _ _ _ (pipelineBody_empty raw parsed_citations))

/-- C8: Any error raised by the retrieval or the extraction call makes the
pipeline raise in turn (no partial result), each provider call is performed
at most once (no retry), and the endpoint surfaces the failure as an HTTP
500 response carrying a detail message. -/
theorem C8_provider_error_becomes_500 (env : ProviderEnv) (e : PyError)
    (h : env.retrieval = Except.error e ∨
      ((∃ c, env.retrieval = Except.ok c) ∧ env.extraction = Except.error e)) :
    (waste_composition_endpoint env).response =
      HttpResponse.error500
        ("Internal server error: 1 validation error for WasteCompositionResponse: composition_dict Field required") ∧
    ((waste_composition_endpoint env).calls = [ProviderCall.retrieval] ∨
      (waste_composition_endpoint env).calls =
        [ProviderCall.retrieval, ProviderCall.extraction]) := by
  obtain ⟨r, x⟩ := env
  rcases h with h1 | ⟨⟨c, hcr⟩, h2⟩
  · dsimp only at h1
    subst h1
    unfold waste_composition_endpoint get_waste_composition pipelineBody
    exact ⟨rfl, Or.inl rfl⟩
  · dsimp only at hcr h2
    subst hcr
    subst h2
    unfold waste_composition_endpoint get_waste_composition pipelineBody
    exact ⟨rfl, Or.inr rfl⟩

/-- C8 witness: a retrieval transport error surfaces as a 500 with a detail
message, with one retrieval call and no extraction call. -/
theorem C8_witness :
    (waste_composition_endpoint
        ⟨Except.error "connection reset", Except.ok ⟨[], []⟩⟩).response =
      HttpResponse.error500
        ("Internal server error: 1 validation error for WasteCompositionResponse: composition_dict Field required") ∧
    ((waste_composition_endpoint
        ⟨Except.error "connection reset", Except.ok ⟨[], []⟩⟩).calls =
          [ProviderCall.retrieval] ∨
      (waste_composition_endpoint
        ⟨Except.error "connection reset", Except.ok ⟨[], []⟩⟩).calls =
          [ProviderCall.retrieval, ProviderCall.extraction]) :=
  C8_provider_error_becomes_500 ⟨Except.error "connection reset", Except.ok ⟨[], []⟩⟩
    "connection reset" (Or.inl rfl)

end Step1
